import Mathlib

/-!
Verification of the basket-construction and frequent-pattern-mining pipeline
of the VAERS big-data project. Shallow embedding of
`src/proj_code_pkg/freq_itemsets.py`, `src/proj_code_pkg/vaers_csv.py` and
`src/cloud_function/main.py`.

Missing values are modelled explicitly: a pandas string cell is
`Option String` (`none` = NA), a pandas float cell is `PFloat`
(`PFloat.nan` = NaN).  Every IEEE comparison `NaN < c` is false, which the
`PFloat.ltc` function reproduces.
-/

namespace Vaers

/-- A pandas float cell: either NaN (missing) or a rational value. -/
inductive PFloat where
  | nan : PFloat
  | val : ℚ → PFloat
deriving DecidableEq

/-- Python `x < c` for a float cell `x` and a literal `c`:
false whenever `x` is NaN, ordinary comparison otherwise. -/
def PFloat.ltc : PFloat → ℚ → Bool
  | .nan, _ => false
  | .val q, c => decide (q < c)

/-- `pd.isna` on a string cell. -/
def pd_isna : Option String → Bool
  | none => true
  | some _ => false

/-- `pd.isna` on a float cell. -/
def pd_isna_float : PFloat → Bool
  | .nan => true
  | .val _ => false

/-- One merged VAERS row, restricted to the fields `build_basket` reads. -/
structure DataRow where
  STATE : Option String
  AGE_YRS : PFloat
  SEX : Option String
  DIED : Option String
  L_THREAT : Option String
  ER_VISIT : Option String
  HOSPITAL : Option String
  X_STAY : Option String
  DISABLE : Option String
  RECOVD : Option String
  BIRTH_DEFECT : Option String
  VAX_NAME : Option String
  SYMPTOM1 : Option String
  SYMPTOM2 : Option String
  SYMPTOM3 : Option String
  SYMPTOM4 : Option String
  SYMPTOM5 : Option String

end Vaers

namespace FreqItemsets

open Vaers

/-- `append_if_not_na` from `src/proj_code_pkg/freq_itemsets.py`:
append `obj` to the list if `obj` is not NA (state-passing form of the
Python in-place append). -/
def append_if_not_na (l : List String) (obj : Option String) : List String :=
  match obj with
  | none => l
  | some s => l ++ [s]

/-- `convert_to_age_group` from `src/proj_code_pkg/freq_itemsets.py`.
The argument is a float cell; each Python `age < c` comparison is
`PFloat.ltc`, so a NaN age falls through every branch. -/
def convert_to_age_group (age : PFloat) : String :=
  if age.ltc 3 then "Age 0-2"
  else if age.ltc 6 then "Age 3-5"
  else if age.ltc 14 then "Age 6-13"
  else if age.ltc 19 then "Age 14-18"
  else if age.ltc 34 then "Age 19-33"
  else if age.ltc 49 then "Age 34-48"
  else if age.ltc 65 then "Age 49-64"
  else if age.ltc 79 then "Age 65-78"
  else "Age 79-older"

/-- `convert_to_sex_group` from `src/proj_code_pkg/freq_itemsets.py`.
A NaN sex value compares unequal to both "F" and "M" in Python, which the
`Option` equality reproduces. -/
def convert_to_sex_group (sex : Option String) : String :=
  if sex = some "F" then "Female"
  else if sex = some "M" then "Male"
  else "Unknown Sex"

/-- `convert_to_labeled_item` from `src/proj_code_pkg/freq_itemsets.py`:
`label if not pd.isna(data) and data == 'Y' else pd.NA`. -/
def convert_to_labeled_item (data : Option String) (label : String) : Option String :=
  if !pd_isna data && data = some "Y" then some label else none

/-- `build_basket` from `src/proj_code_pkg/freq_itemsets.py`: the sequence
of `append_if_not_na` calls, in source order, starting from the empty list.
`convert_to_age_group` and `convert_to_sex_group` return plain strings
(never NA), hence the `some` wrappers at their call sites. -/
def build_basket (r : DataRow) : List String :=
  let b := ([] : List String)
  let b := append_if_not_na b r.STATE
  let b := append_if_not_na b (some (convert_to_age_group r.AGE_YRS))
  let b := append_if_not_na b (some (convert_to_sex_group r.SEX))
  let b := append_if_not_na b (convert_to_labeled_item r.DIED "Died")
  let b := append_if_not_na b (convert_to_labeled_item r.L_THREAT "Life-threatening illness")
  let b := append_if_not_na b (convert_to_labeled_item r.ER_VISIT "Emergency room visit")
  let b := append_if_not_na b (convert_to_labeled_item r.HOSPITAL "Hospitalized ")
  let b := append_if_not_na b (convert_to_labeled_item r.X_STAY "Prolongation of existing hospitalization")
  let b := append_if_not_na b (convert_to_labeled_item r.DISABLE "Disability")
  let b := append_if_not_na b (convert_to_labeled_item r.RECOVD "Recovered")
  let b := append_if_not_na b (convert_to_labeled_item r.BIRTH_DEFECT "Birth defect")
  let b := append_if_not_na b r.VAX_NAME
  let b := append_if_not_na b r.SYMPTOM1
  let b := append_if_not_na b r.SYMPTOM2
  let b := append_if_not_na b r.SYMPTOM3
  let b := append_if_not_na b r.SYMPTOM4
  let b := append_if_not_na b r.SYMPTOM5
  b

/-- The (field selector, label) pairs of the `convert_to_labeled_item` calls
in `build_basket`, in source order: the boolean-flag fields of the basket
builder. -/
def flag_fields : List ((DataRow → Option String) × String) :=
  [(fun r => r.DIED, "Died"),
   (fun r => r.L_THREAT, "Life-threatening illness"),
   (fun r => r.ER_VISIT, "Emergency room visit"),
   (fun r => r.HOSPITAL, "Hospitalized "),
   (fun r => r.X_STAY, "Prolongation of existing hospitalization"),
   (fun r => r.DISABLE, "Disability"),
   (fun r => r.RECOVD, "Recovered"),
   (fun r => r.BIRTH_DEFECT, "Birth defect")]

/-- Modelled from the spec: the One-Hot Encoder vocabulary (§4.3), computed
in the source by `mlxtend.preprocessing.TransactionEncoder` (a library
outside this repository): the set of distinct tokens across all baskets.
mlxtend additionally sorts this list; no claim proved here depends on the
column order, only on the column set. -/
def te_columns (baskets : List (List String)) : List String :=
  baskets.flatten.dedup

/-- `build_one_hot_basket_dataset` from `src/proj_code_pkg/freq_itemsets.py`
(dense variant, `TransactionEncoder.fit(baskets).transform(baskets)`).
Modelled from the spec: §4.3 — one boolean row per basket, one column per
distinct token, cell = presence of the column token in the basket. -/
def build_one_hot_basket_dataset (baskets : List (List String)) :
    List String × List (List Bool) :=
  (te_columns baskets,
   baskets.map (fun b => (te_columns baskets).map (fun c => b.contains c)))

/-- Decoding one occurrence-matrix row back to the tokens marked present
(the claim-side reading of a row). -/
def decode_row (cols : List String) (row : List Bool) : List String :=
  ((cols.zip row).filter (fun p => p.2)).map (fun p => p.1)

/-- Modelled from the spec: §4.4 — the support of an itemset is the
fraction of baskets containing every token of the itemset. -/
def itemset_support (baskets : List (List String)) (s : List String) : ℚ :=
  ((baskets.countP (fun b => s.all (fun t => b.contains t)) : ℕ) : ℚ) /
    ((baskets.length : ℕ) : ℚ)

/-- Modelled from the spec: §4.4 — `mlxtend.frequent_patterns.fpgrowth`
(a library outside this repository) returns every nonempty token subset
whose support meets or exceeds `minsup`. -/
def fpgrowth (baskets : List (List String)) (minsup : ℚ) : List (List String) :=
  (te_columns baskets).sublists.filter
    (fun s => !s.isEmpty && decide (minsup ≤ itemset_support baskets s))

end FreqItemsets

namespace VaersCsv

/-- A dataframe for the join stage: the list of (VAERS_ID index value, row
payload) pairs.  pandas permits duplicate index values. -/
abbrev Table := List (ℕ × List String)

/-- `pd.merge(x, y, left_index=True, right_index=True, sort=False)`:
inner join on the index — for each left row, one output row per matching
right row, payloads concatenated. -/
def pd_merge (x y : Table) : Table :=
  x.flatMap (fun a => (y.filter (fun b => b.1 = a.1)).map (fun b => (a.1, a.2 ++ b.2)))

/-- `merge_dataframes` from `src/proj_code_pkg/vaers_csv.py` (the copy in
`src/cloud_function/main.py` is identical): `functools.reduce` of the
pairwise inner merge over the list of dataframes. -/
def merge_dataframes : List Table → Table
  | [] => []
  | x :: xs => xs.foldl pd_merge x

/-- Number of rows of a table carrying the key `k`. -/
def keyCount (t : Table) (k : ℕ) : ℕ :=
  t.countP (fun p => p.1 = k)

end VaersCsv

namespace CloudFunction

open Vaers

/-- `append_if_not_na` from `src/cloud_function/main.py` (textually
identical to the `proj_code_pkg` copy). -/
def append_if_not_na (l : List String) (obj : Option String) : List String :=
  match obj with
  | none => l
  | some s => l ++ [s]

/-- `convert_to_age_group` from `src/cloud_function/main.py` (textually
identical to the `proj_code_pkg` copy). -/
def convert_to_age_group (age : PFloat) : String :=
  if age.ltc 3 then "Age 0-2"
  else if age.ltc 6 then "Age 3-5"
  else if age.ltc 14 then "Age 6-13"
  else if age.ltc 19 then "Age 14-18"
  else if age.ltc 34 then "Age 19-33"
  else if age.ltc 49 then "Age 34-48"
  else if age.ltc 65 then "Age 49-64"
  else if age.ltc 79 then "Age 65-78"
  else "Age 79-older"

/-- `convert_to_sex_group` from `src/cloud_function/main.py` (textually
identical to the `proj_code_pkg` copy). -/
def convert_to_sex_group (sex : Option String) : String :=
  if sex = some "F" then "Female"
  else if sex = some "M" then "Male"
  else "Unknown Sex"

/-- `convert_to_labeled_item` from `src/cloud_function/main.py` (textually
identical to the `proj_code_pkg` copy). -/
def convert_to_labeled_item (data : Option String) (label : String) : Option String :=
  if !pd_isna data && data = some "Y" then some label else none

/-- `build_basket` from `src/cloud_function/main.py` (textually identical
to the `proj_code_pkg` copy). -/
def build_basket (r : DataRow) : List String :=
  let b := ([] : List String)
  let b := append_if_not_na b r.STATE
  let b := append_if_not_na b (some (convert_to_age_group r.AGE_YRS))
  let b := append_if_not_na b (some (convert_to_sex_group r.SEX))
  let b := append_if_not_na b (convert_to_labeled_item r.DIED "Died")
  let b := append_if_not_na b (convert_to_labeled_item r.L_THREAT "Life-threatening illness")
  let b := append_if_not_na b (convert_to_labeled_item r.ER_VISIT "Emergency room visit")
  let b := append_if_not_na b (convert_to_labeled_item r.HOSPITAL "Hospitalized ")
  let b := append_if_not_na b (convert_to_labeled_item r.X_STAY "Prolongation of existing hospitalization")
  let b := append_if_not_na b (convert_to_labeled_item r.DISABLE "Disability")
  let b := append_if_not_na b (convert_to_labeled_item r.RECOVD "Recovered")
  let b := append_if_not_na b (convert_to_labeled_item r.BIRTH_DEFECT "Birth defect")
  let b := append_if_not_na b r.VAX_NAME
  let b := append_if_not_na b r.SYMPTOM1
  let b := append_if_not_na b r.SYMPTOM2
  let b := append_if_not_na b r.SYMPTOM3
  let b := append_if_not_na b r.SYMPTOM4
  let b := append_if_not_na b r.SYMPTOM5
  b

/-- `build_one_hot_basket_dataset` from `src/cloud_function/main.py`
(sparse variant, `TransactionEncoder.fit_transform(baskets, sparse=True)`
then `pd.DataFrame.sparse.from_spmatrix`).  Modelled from the spec: §4.3 —
same column vocabulary, with the matrix held as the coordinate list of the
True cells. -/
def build_one_hot_basket_dataset (baskets : List (List String)) :
    List String × List (ℕ × ℕ) :=
  let cols := FreqItemsets.te_columns baskets
  (cols,
   (List.range baskets.length).flatMap (fun i =>
     ((List.range cols.length).filter
        (fun j => (baskets.getD i []).contains (cols.getD j ""))).map
       (fun j => (i, j))))

end CloudFunction

namespace SpecSide

open Vaers

/-- The nine §4.2 age-group labels, as the code spells them. -/
def age_labels : List String :=
  ["Age 0-2", "Age 3-5", "Age 6-13", "Age 14-18", "Age 19-33",
   "Age 34-48", "Age 49-64", "Age 65-78", "Age 79-older"]

/-- The §4.2 age table written the spec's way: nine contiguous left-closed
right-open ranges covering `[0, ∞)`, every boundary belonging to the upper
range — with the label spellings the code actually returns.  Ages below 0
fall outside the table and get a sentinel. -/
def spec_age_label (a : ℚ) : String :=
  if 0 ≤ a ∧ a < 3 then "Age 0-2"
  else if 3 ≤ a ∧ a < 6 then "Age 3-5"
  else if 6 ≤ a ∧ a < 14 then "Age 6-13"
  else if 14 ≤ a ∧ a < 19 then "Age 14-18"
  else if 19 ≤ a ∧ a < 34 then "Age 19-33"
  else if 34 ≤ a ∧ a < 49 then "Age 34-48"
  else if 49 ≤ a ∧ a < 65 then "Age 49-64"
  else if 65 ≤ a ∧ a < 79 then "Age 65-78"
  else if 79 ≤ a then "Age 79-older"
  else "out of range"

end SpecSide

namespace FreqItemsets

open Vaers

/-- A merged row with every field missing: every string cell NA, the age
cell NaN. -/
def missing_row : DataRow :=
  ⟨none, PFloat.nan, none, none, none, none, none, none, none, none, none,
   none, none, none, none, none, none⟩

end FreqItemsets

namespace FreqItemsets

open Vaers

lemma append_if_not_na_eq (l : List String) (o : Option String) :
    append_if_not_na l o = l ++ o.toList := by
  cases o <;> simp [append_if_not_na]

/-- Normal form of `build_basket`: the concatenation of the per-field
contributions, in source order. -/
lemma build_basket_decomp (r : DataRow) :
    build_basket r =
      r.STATE.toList ++ [convert_to_age_group r.AGE_YRS] ++
      [convert_to_sex_group r.SEX] ++
      (convert_to_labeled_item r.DIED "Died").toList ++
      (convert_to_labeled_item r.L_THREAT "Life-threatening illness").toList ++
      (convert_to_labeled_item r.ER_VISIT "Emergency room visit").toList ++
      (convert_to_labeled_item r.HOSPITAL "Hospitalized ").toList ++
      (convert_to_labeled_item r.X_STAY "Prolongation of existing hospitalization").toList ++
      (convert_to_labeled_item r.DISABLE "Disability").toList ++
      (convert_to_labeled_item r.RECOVD "Recovered").toList ++
      (convert_to_labeled_item r.BIRTH_DEFECT "Birth defect").toList ++
      r.VAX_NAME.toList ++ r.SYMPTOM1.toList ++ r.SYMPTOM2.toList ++
      r.SYMPTOM3.toList ++ r.SYMPTOM4.toList ++ r.SYMPTOM5.toList := by
  simp [build_basket, append_if_not_na_eq]

end FreqItemsets

open Vaers FreqItemsets in
/-- C1: the claim says a missing `AGE_YRS` contributes no age token.  On the
code, a NaN age falls through every `age < c` comparison of
`convert_to_age_group` (IEEE comparisons with NaN are false), the function
returns the plain string "Age 79-older", and `append_if_not_na` cannot
filter it: the all-missing row's basket does contain an age token. -/
theorem age_token_present_when_age_missing :
    pd_isna_float missing_row.AGE_YRS = true ∧
    build_basket missing_row = ["Age 79-older", "Unknown Sex"] ∧
    convert_to_age_group missing_row.AGE_YRS ∈ build_basket missing_row := by
  refine ⟨rfl, rfl, ?_⟩
  decide

open Vaers FreqItemsets SpecSide in
/-- C2 (counterexample): the claim says the returned labels are the §4.2
table names "0-2" … "79+"; the code returns "Age 79-older" at age 79, which
is not the table name "79+". -/
theorem age_label_differs_from_table_name :
    convert_to_age_group (PFloat.val 79) = "Age 79-older" ∧
    ("Age 79-older" : String) ≠ "79+" := by
  constructor
  · norm_num [convert_to_age_group, PFloat.ltc]
  · decide

open Vaers FreqItemsets SpecSide in
/-- C2 (amended): for every non-missing age `a ≥ 0`, `convert_to_age_group`
agrees with the §4.2 table read as nine contiguous left-closed right-open
ranges covering `[0, ∞)` (each boundary in the upper range), with the
labels spelled as in the code: "Age 0-2" … "Age 79-older" instead of
"0-2" … "79+"; the result is always one of those nine labels. -/
theorem convert_to_age_group_eq_spec (a : ℚ) (ha : 0 ≤ a) :
    convert_to_age_group (PFloat.val a) = spec_age_label a ∧
    spec_age_label a ∈ age_labels := by
  rcases lt_or_le a 3 with h1 | h1
  · simp [convert_to_age_group, spec_age_label, age_labels, PFloat.ltc, ha, h1]
  rcases lt_or_le a 6 with h2 | h2
  · simp [convert_to_age_group, spec_age_label, age_labels, PFloat.ltc,
      ha, h1, h1.not_lt, h2]
  rcases lt_or_le a 14 with h3 | h3
  · simp [convert_to_age_group, spec_age_label, age_labels, PFloat.ltc,
      ha, h1, h1.not_lt, h2, h2.not_lt, h3]
  rcases lt_or_le a 19 with h4 | h4
  · simp [convert_to_age_group, spec_age_label, age_labels, PFloat.ltc,
      ha, h1, h1.not_lt, h2, h2.not_lt, h3, h3.not_lt, h4]
  rcases lt_or_le a 34 with h5 | h5
  · simp [convert_to_age_group, spec_age_label, age_labels, PFloat.ltc,
      ha, h1, h1.not_lt, h2, h2.not_lt, h3, h3.not_lt, h4, h4.not_lt, h5]
  rcases lt_or_le a 49 with h6 | h6
  · simp [convert_to_age_group, spec_age_label, age_labels, PFloat.ltc,
      ha, h1, h1.not_lt, h2, h2.not_lt, h3, h3.not_lt, h4, h4.not_lt,
      h5, h5.not_lt, h6]
  rcases lt_or_le a 65 with h7 | h7
  · simp [convert_to_age_group, spec_age_label, age_labels, PFloat.ltc,
      ha, h1, h1.not_lt, h2, h2.not_lt, h3, h3.not_lt, h4, h4.not_lt,
      h5, h5.not_lt, h6, h6.not_lt, h7]
  rcases lt_or_le a 79 with h8 | h8
  · simp [convert_to_age_group, spec_age_label, age_labels, PFloat.ltc,
      ha, h1, h1.not_lt, h2, h2.not_lt, h3, h3.not_lt, h4, h4.not_lt,
      h5, h5.not_lt, h6, h6.not_lt, h7, h7.not_lt, h8]
  · simp [convert_to_age_group, spec_age_label, age_labels, PFloat.ltc,
      ha, h1, h1.not_lt, h2, h2.not_lt, h3, h3.not_lt, h4, h4.not_lt,
      h5, h5.not_lt, h6, h6.not_lt, h7, h7.not_lt, h8, h8.not_lt]

open Vaers FreqItemsets SpecSide in
/-- C2 (witness): at the boundary age 3 the theorem applies and places 3 in
the upper range "Age 3-5". -/
theorem convert_to_age_group_eq_spec_witness :
    (0 : ℚ) ≤ 3 ∧
    (convert_to_age_group (PFloat.val 3) = spec_age_label 3 ∧
     spec_age_label 3 ∈ age_labels) ∧
    spec_age_label 3 = "Age 3-5" := by
  refine ⟨by norm_num, convert_to_age_group_eq_spec 3 (by norm_num), ?_⟩
  norm_num [spec_age_label]

open Vaers FreqItemsets in
/-- C3: in every basket the Sex field contributes exactly one token — the
singleton `[convert_to_sex_group r.SEX]` in the decomposition of
`build_basket` — and the mapping is "F" to "Female", "M" to "Male", and
anything else (missing included) to "Unknown Sex". -/
theorem sex_field_always_one_token :
    (∀ r : DataRow, build_basket r =
      r.STATE.toList ++ [convert_to_age_group r.AGE_YRS] ++
      [convert_to_sex_group r.SEX] ++
      (convert_to_labeled_item r.DIED "Died").toList ++
      (convert_to_labeled_item r.L_THREAT "Life-threatening illness").toList ++
      (convert_to_labeled_item r.ER_VISIT "Emergency room visit").toList ++
      (convert_to_labeled_item r.HOSPITAL "Hospitalized ").toList ++
      (convert_to_labeled_item r.X_STAY "Prolongation of existing hospitalization").toList ++
      (convert_to_labeled_item r.DISABLE "Disability").toList ++
      (convert_to_labeled_item r.RECOVD "Recovered").toList ++
      (convert_to_labeled_item r.BIRTH_DEFECT "Birth defect").toList ++
      r.VAX_NAME.toList ++ r.SYMPTOM1.toList ++ r.SYMPTOM2.toList ++
      r.SYMPTOM3.toList ++ r.SYMPTOM4.toList ++ r.SYMPTOM5.toList) ∧
    convert_to_sex_group (some "F") = "Female" ∧
    convert_to_sex_group (some "M") = "Male" ∧
    convert_to_sex_group none = "Unknown Sex" ∧
    (∀ s : Option String, s ≠ some "F" → s ≠ some "M" →
      convert_to_sex_group s = "Unknown Sex") := by
  refine ⟨build_basket_decomp, rfl, rfl, rfl, ?_⟩
  intro s hF hM
  simp [convert_to_sex_group, hF, hM]

open Vaers FreqItemsets in
/-- C3 (witness): an arbitrary other sex value still produces exactly the
token "Unknown Sex". -/
theorem sex_field_always_one_token_witness :
    (some "X" : Option String) ≠ some "F" ∧
    (some "X" : Option String) ≠ some "M" ∧
    convert_to_sex_group (some "X") = "Unknown Sex" :=
  ⟨by decide, by decide,
   sex_field_always_one_token.2.2.2.2 (some "X") (by decide) (by decide)⟩

open Vaers FreqItemsets in
/-- C4 (counterexample): the claim speaks of 9 boolean-flag fields; the
basket builder handles exactly 8 (`DIED`, `L_THREAT`, `ER_VISIT`,
`HOSPITAL`, `X_STAY`, `DISABLE`, `RECOVD`, `BIRTH_DEFECT`), not 9. -/
theorem flag_field_count_is_eight :
    flag_fields.length = 8 ∧ flag_fields.length ≠ 9 := by
  constructor
  · rfl
  · decide

open Vaers FreqItemsets in
/-- C4 (amended): for each of the 8 boolean-flag fields of the basket
builder, the fixed label is emitted exactly when the raw value is the
literal "Y"; any other value, a missing value included, emits nothing. -/
theorem flag_field_emits_iff_Y :
    flag_fields.length = 8 ∧
    (∀ (d : Option String) (label : String),
      (convert_to_labeled_item d label).toList =
        if d = some "Y" then [label] else []) ∧
    (∀ r : DataRow, build_basket r =
      r.STATE.toList ++ [convert_to_age_group r.AGE_YRS] ++
      [convert_to_sex_group r.SEX] ++
      (flag_fields.flatMap (fun p => (convert_to_labeled_item (p.1 r) p.2).toList)) ++
      r.VAX_NAME.toList ++ r.SYMPTOM1.toList ++ r.SYMPTOM2.toList ++
      r.SYMPTOM3.toList ++ r.SYMPTOM4.toList ++ r.SYMPTOM5.toList) := by
  refine ⟨rfl, ?_, ?_⟩
  · intro d label
    rcases d with _ | s
    · simp [convert_to_labeled_item, pd_isna]
    · by_cases h : s = "Y" <;> simp [convert_to_labeled_item, pd_isna, h]
  · intro r
    rw [build_basket_decomp]
    simp [flag_fields]

namespace VaersCsv

lemma mem_key_pd_merge (x y : Table) (k : ℕ) :
    (∃ p ∈ pd_merge x y, p.1 = k) ↔
      (∃ p ∈ x, p.1 = k) ∧ (∃ p ∈ y, p.1 = k) := by
  simp only [pd_merge, List.mem_flatMap, List.mem_map, List.mem_filter]
  constructor
  · rintro ⟨p, ⟨a, ha, b, ⟨hb, hba⟩, rfl⟩, hk⟩
    exact ⟨⟨a, ha, hk⟩, ⟨b, hb, by simp_all⟩⟩
  · rintro ⟨⟨a, ha, hak⟩, ⟨b, hb, hbk⟩⟩
    exact ⟨(a.1, a.2 ++ b.2), ⟨a, ha, b, ⟨hb, by simp [hbk, hak]⟩, rfl⟩, hak⟩

lemma keyCount_pd_merge (x y : Table) (k : ℕ) :
    keyCount (pd_merge x y) k = keyCount x k * keyCount y k := by
  induction x with
  | nil => simp [pd_merge, keyCount]
  | cons a x ih =>
    have hstep : pd_merge (a :: x) y =
        ((y.filter (fun b => b.1 = a.1)).map (fun b => (a.1, a.2 ++ b.2))) ++
          pd_merge x y := rfl
    by_cases hak : a.1 = k
    · simp only [hstep, keyCount, List.countP_append, List.countP_map] at ih ⊢
      simp only [Function.comp_def, hak, decide_True, List.countP_true,
        List.countP_cons, if_true]
      rw [← List.countP_eq_length_filter, ih]
      ring
    · simp only [hstep, keyCount, List.countP_append, List.countP_map] at ih ⊢
      simp only [Function.comp_def, hak, decide_False, List.countP_false,
        List.countP_cons, if_false]
      simpa using ih

lemma merge_three (x y z : Table) :
    merge_dataframes [x, y, z] = pd_merge (pd_merge x y) z := rfl

end VaersCsv

open VaersCsv in
/-- C5: the join stage is an inner join on the report key — a key appears
in the three-table merge exactly when it appears in all three inputs; on
the spec's example, keys {1,2,3} joined with keys {2,3,4} leave exactly
the keys {2,3}. -/
theorem inner_join_key_membership :
    (∀ (x y z : Table) (k : ℕ),
      (∃ p ∈ merge_dataframes [x, y, z], p.1 = k) ↔
        ((∃ p ∈ x, p.1 = k) ∧ (∃ p ∈ y, p.1 = k) ∧ (∃ p ∈ z, p.1 = k))) ∧
    (merge_dataframes [[(1, ["a"]), (2, ["a"]), (3, ["a"])],
        [(2, ["b"]), (3, ["b"]), (4, ["b"])]]).map Prod.fst = [2, 3] := by
  constructor
  · intro x y z k
    rw [merge_three, mem_key_pd_merge, mem_key_pd_merge, and_assoc]
  · decide

open VaersCsv in
/-- C6 (counterexample): the claim says the join fails when the key is not
unique in one input; on the code, two rows with the duplicate key 1 merged
with one matching row produce two merged rows and no error. -/
theorem duplicate_key_join_produces_rows :
    merge_dataframes [[(1, ["a"]), (1, ["b"])], [(1, ["c"])]] =
      [(1, ["a", "c"]), (1, ["b", "c"])] ∧
    merge_dataframes [[(1, ["a"]), (1, ["b"])], [(1, ["c"])]] ≠ [] := by
  decide

open VaersCsv in
/-- C6 (amended): the join stage never fails on a non-unique key: a key
occurring m times in one table and n times in the other yields m·n merged
rows for that key (Cartesian semantics of the pandas index merge); a
missing key column surfaces at the read stage (`set_index`), before the
join. -/
theorem join_key_multiplicity :
    ∀ (x y z : Table) (k : ℕ),
      keyCount (pd_merge x y) k = keyCount x k * keyCount y k ∧
      keyCount (merge_dataframes [x, y, z]) k =
        keyCount x k * keyCount y k * keyCount z k := by
  intro x y z k
  refine ⟨keyCount_pd_merge x y k, ?_⟩
  rw [merge_three, keyCount_pd_merge, keyCount_pd_merge]

namespace FreqItemsets

lemma mem_decode_row_map (f : String → Bool) (t : String) (cols : List String) :
    t ∈ decode_row cols (cols.map f) ↔ t ∈ cols ∧ f t = true := by
  induction cols with
  | nil => simp [decode_row]
  | cons c cs ih =>
    simp only [decode_row, List.map_cons, List.zip_cons_cons, List.filter_cons] at ih ⊢
    by_cases h : f c
    · simp only [h, if_true, List.map_cons, List.mem_cons]
      constructor
      · rintro (rfl | hx)
        · exact ⟨Or.inl rfl, h⟩
        · exact ⟨Or.inr (ih.mp hx).1, (ih.mp hx).2⟩
      · rintro ⟨rfl | h1, h2⟩
        · exact Or.inl rfl
        · exact Or.inr (ih.mpr ⟨h1, h2⟩)
    · simp only [h, Bool.false_eq_true, if_false, List.mem_cons]
      rw [ih]
      constructor
      · rintro ⟨h1, h2⟩
        exact ⟨Or.inr h1, h2⟩
      · rintro ⟨rfl | h1, h2⟩
        · exact absurd h2 h
        · exact ⟨h1, h2⟩

lemma mem_te_columns_of_mem {baskets : List (List String)} {b : List String}
    (hb : b ∈ baskets) {t : String} (ht : t ∈ b) : t ∈ te_columns baskets := by
  simp only [te_columns, List.mem_dedup, List.mem_flatten]
  exact ⟨b, hb, ht⟩

end FreqItemsets

open FreqItemsets in
/-- C8: round-trip — each row of the occurrence matrix produced by
`build_one_hot_basket_dataset`, decoded back to the set of columns marked
present, carries exactly the token set of the corresponding basket
(order-insensitive: stated as a membership equivalence, row by row along
the basket list). -/
theorem one_hot_round_trip (baskets : List (List String)) :
    List.Forall₂ (fun b row => ∀ t : String,
        t ∈ decode_row (build_one_hot_basket_dataset baskets).1 row ↔ t ∈ b)
      baskets (build_one_hot_basket_dataset baskets).2 := by
  have hmat : (build_one_hot_basket_dataset baskets).2 =
      baskets.map (fun b => (te_columns baskets).map (fun c => b.contains c)) := rfl
  have hcols : (build_one_hot_basket_dataset baskets).1 = te_columns baskets := rfl
  rw [hmat, hcols, List.forall₂_map_right_iff, List.forall₂_same]
  intro b hb t
  rw [mem_decode_row_map]
  simp only [List.elem_eq_mem, decide_eq_true_eq]
  exact ⟨fun h => h.2, fun h => ⟨mem_te_columns_of_mem hb h, h⟩⟩

open FreqItemsets in
/-- C9: monotonicity of mining in the support threshold — with the same
basket corpus, every itemset frequent at the larger threshold is frequent
at the smaller one. -/
theorem fpgrowth_monotone (baskets : List (List String)) (m1 m2 : ℚ)
    (h : m1 < m2) : ∀ s ∈ fpgrowth baskets m2, s ∈ fpgrowth baskets m1 := by
  intro s hs
  simp only [fpgrowth, List.mem_filter, Bool.and_eq_true, Bool.not_eq_true,
    decide_eq_true_eq] at hs ⊢
  exact ⟨hs.1, hs.2.1, le_trans h.le hs.2.2⟩

open FreqItemsets in
/-- C9 (witness): on the one-basket corpus `[["a"]]`, the itemset `["a"]`
is frequent at threshold 1 and hence also at the smaller threshold 1/2. -/
theorem fpgrowth_monotone_witness :
    ((1 : ℚ)/2 < 1) ∧ ["a"] ∈ fpgrowth [["a"]] ((1 : ℚ)/2) :=
  ⟨by norm_num,
   fpgrowth_monotone [["a"]] ((1 : ℚ)/2) 1 (by norm_num) ["a"]
     (by simp [fpgrowth, te_columns, itemset_support, List.sublists])⟩

open Vaers in
/-- C10: the two copies of the pipeline agree extensionally — the two
`build_basket` functions return identical baskets on every row, and the
dense and sparse `build_one_hot_basket_dataset` variants produce the same
column list and the same cell values (a dense cell is true exactly when
the sparse coordinate list contains that cell, out-of-range cells read as
false on both sides). -/
theorem duplicate_pipelines_agree :
    (∀ r : DataRow, FreqItemsets.build_basket r = CloudFunction.build_basket r) ∧
    (∀ baskets : List (List String),
      (FreqItemsets.build_one_hot_basket_dataset baskets).1 =
        (CloudFunction.build_one_hot_basket_dataset baskets).1) ∧
    (∀ (baskets : List (List String)) (i j : ℕ),
      ((FreqItemsets.build_one_hot_basket_dataset baskets).2.getD i []).getD j false =
        (CloudFunction.build_one_hot_basket_dataset baskets).2.contains (i, j)) := by
  refine ⟨fun r => rfl, fun baskets => rfl, ?_⟩
  intro baskets i j
  set cols := FreqItemsets.te_columns baskets with hcols
  rw [Bool.eq_iff_iff]
  have hsp : ((CloudFunction.build_one_hot_basket_dataset baskets).2.contains (i, j) = true) ↔
      (i < baskets.length ∧ j < cols.length ∧
        ((baskets.getD i []).contains (cols.getD j "")) = true) := by
    simp only [CloudFunction.build_one_hot_basket_dataset, ← hcols]
    simp only [List.elem_eq_mem, decide_eq_true_eq, List.mem_flatMap, List.mem_map,
      List.mem_filter, List.mem_range, Prod.mk.injEq]
    constructor
    · rintro ⟨i1, hi1, j1, ⟨⟨hj1, hc⟩, rfl, rfl⟩⟩
      exact ⟨hi1, hj1, hc⟩
    · rintro ⟨hi, hj, hc⟩
      exact ⟨i, hi, j, ⟨⟨hj, hc⟩, rfl, rfl⟩⟩
  rw [hsp]
  rcases Nat.lt_or_ge i baskets.length with hi | hi
  · have hbg : baskets[i]? = some baskets[i] := List.getElem?_eq_getElem hi
    have hrow : ((FreqItemsets.build_one_hot_basket_dataset baskets).2.getD i []) =
        cols.map (fun c => (baskets[i]).contains c) := by
      simp [FreqItemsets.build_one_hot_basket_dataset, List.getD_eq_getElem?_getD,
        List.getElem?_map, hbg, hcols]
    have hbd : baskets.getD i [] = baskets[i] := by
      simp [List.getD_eq_getElem?_getD, hbg]
    rw [hrow, hbd]
    rcases Nat.lt_or_ge j cols.length with hj | hj
    · have hcg : cols[j]? = some cols[j] := List.getElem?_eq_getElem hj
      have hcd : cols.getD j "" = cols[j] := by
        simp [List.getD_eq_getElem?_getD, hcg]
      have hcell : (cols.map (fun c => (baskets[i]).contains c)).getD j false =
          (baskets[i]).contains cols[j] := by
        simp [List.getD_eq_getElem?_getD, List.getElem?_map, hcg]
      rw [hcell, hcd]
      simp [hi, hj]
    · have hcell : (cols.map (fun c => (baskets[i]).contains c)).getD j false = false := by
        simp [List.getD_eq_getElem?_getD, List.getElem?_eq_none (by simpa using hj)]
      rw [hcell]
      simp [Nat.not_lt.mpr hj]
  · have hcell : ((FreqItemsets.build_one_hot_basket_dataset baskets).2.getD i []) = [] := by
      simp [FreqItemsets.build_one_hot_basket_dataset, List.getD_eq_getElem?_getD,
        List.getElem?_eq_none (by simpa using hi)]
    rw [hcell]
    simp [Nat.not_lt.mpr hi]
